import Mathlib

/-!
Verification of the sectigo-client library's spec against a shallow
embedding of its Go source (package `sectigo`).

The embedding models each function's observable behaviour over explicit
oracles: an HTTP exchange is represented by the response the server would
give (`HttpResponse`), and the network-free parts (validation, query
construction, JSON marshalling, the pagination and retry loops) are
translated directly from the source.  Loops that are not structurally
terminating in the source (the `ListAllX` pagination loops) are given a
fuel parameter: `none` models a loop that is still running after `fuel`
iterations.
-/

namespace Sectigo

/-! ## Client core: sendRequest (client.go) -/

/-- An HTTP response as `sendRequest` observes it once the transport call
succeeded and the body was fully read: the status code and the body bytes
(modelled as a string of characters; the source's byte counts coincide
with character counts for the ASCII bodies the claims are about). -/
structure HttpResponse where
  statusCode : Nat
  body : String

/-- The status comparison of `sendRequest` (client.go): accept any 2xx when
the sentinel `0` was given, else require the exact expected code. -/
def statusMatches (expectedStatus statusCode : Nat) : Bool :=
  if expectedStatus = 0 then
    decide (200 ≤ statusCode) && decide (statusCode < 300)
  else
    statusCode == expectedStatus

/-- `sendRequest` (client.go, lines 91-125), given the response the server
produced: on status match return the body, otherwise return the error
`fmt.Errorf("failed request, status code: %d, response: %s", ...)` with the
body truncated to 500 characters and a `"... (truncated)"` marker. -/
def sendRequest (resp : HttpResponse) (expectedStatus : Nat) : Except String String :=
  if statusMatches expectedStatus resp.statusCode then
    .ok resp.body
  else
    let bodyStr :=
      if resp.body.length > 500 then resp.body.take 500 ++ "... (truncated)"
      else resp.body
    .error ("failed request, status code: " ++ toString resp.statusCode
      ++ ", response: " ++ bodyStr)

/-- `needle` occurs contiguously inside `hay`. -/
def strContains (hay needle : String) : Prop :=
  ∃ a b, hay = a ++ (needle ++ b)

/-- The status-check-and-discard shape shared by every write method
(CreateDomain, DeleteDomain, ApproveDelegation, DelegateDomain,
AddAcmeAccountDomains, and the network phases of RevokeSSLById and
UpdateSSLDetails): `_, _, err = c.sendRequest(ctx, req, expected); return err`. -/
def sendRequestUnit (resp : HttpResponse) (expectedStatus : Nat) : Except String Unit :=
  match sendRequest resp expectedStatus with
  | .ok _ => .ok ()
  | .error e => .error e

/-- `CreateDomain` (domain.go): POST, expects `http.StatusCreated` (201). -/
def CreateDomain (resp : HttpResponse) : Except String Unit :=
  sendRequestUnit resp 201

/-- `DeleteDomain` (domain.go): DELETE, expects `http.StatusNoContent` (204). -/
def DeleteDomain (resp : HttpResponse) : Except String Unit :=
  sendRequestUnit resp 204

/-- `ApproveDelegation` (domain.go): POST, expects `http.StatusOK` (200). -/
def ApproveDelegation (resp : HttpResponse) : Except String Unit :=
  sendRequestUnit resp 200

/-- `DelegateDomain` (domain.go): POST, expects `http.StatusOK` (200). -/
def DelegateDomain (resp : HttpResponse) : Except String Unit :=
  sendRequestUnit resp 200

/-- `AddAcmeAccountDomains` (acme.go): POST, expects `http.StatusOK` (200). -/
def AddAcmeAccountDomains (resp : HttpResponse) : Except String Unit :=
  sendRequestUnit resp 200

/-- The network phase of `RevokeSSLById` (ssl.go), reached only after the
reason-length validation passed: POST, expects `http.StatusNoContent` (204). -/
def revokeSSLSend (resp : HttpResponse) : Except String Unit :=
  sendRequestUnit resp 204

/-- The network phase of `UpdateSSLDetails` (ssl.go), reached only after
`validateUpdateSSLDetailsRequest` passed: PUT, expects `http.StatusOK` (200). -/
def updateSSLSend (resp : HttpResponse) : Except String Unit :=
  sendRequestUnit resp 200

/-! ## Pagination: the ListAllX loop (domain.go, acme.go, ssl.go) -/

/-- `Domain` (domain.go): a domain record of the list response. -/
structure Domain where
  id : Int := 0
  name : String := ""

/-- The pagination loop repeated verbatim in `ListAllDomain`,
`ListAllDomainValidation`, `ListAllAcmeAccount`, `ListAllAcmeAccountDomain`
and `ListAllSSL`:  `fetch size position` models one call of the single-page
List method, returning the page's items together with the `TotalCount` the
method stored from the `X-Total-Count` header (`0` when the header was
absent).  Each iteration appends the page, then breaks when the page was
short (`len < size`) or `position+size >= totalCount`; otherwise it
advances `position` by `size` (= 200).  `fuel` bounds the iterations:
`none` models the loop still running after `fuel` of them. -/
def listAllLoop {α : Type} (fetch : Nat → Nat → Except String (List α × Int)) :
    Nat → Nat → List α → Option (Except String (List α))
  | 0, _, _ => none
  | fuel + 1, position, acc =>
    match fetch 200 position with
    | .error e => some (.error e)
    | .ok (items, totalCount) =>
      let acc2 := acc ++ items
      if items.length < 200 ∨ (position : Int) + 200 ≥ totalCount then
        some (.ok acc2)
      else
        listAllLoop fetch fuel (position + 200) acc2

/-- A ListAllX call: the loop from `position = 0` with an empty accumulator. -/
def listAll {α : Type} (fetch : Nat → Nat → Except String (List α × Int))
    (fuel : Nat) : Option (Except String (List α)) :=
  listAllLoop fetch fuel 0 []

/-- `ListAllDomain` (domain.go, lines 280-303), as `listAll` at item type
`Domain`; the other four ListAllX variants differ only in this item type. -/
def ListAllDomain (fetch : Nat → Nat → Except String (List Domain × Int))
    (fuel : Nat) : Option (Except String (List Domain)) :=
  listAll fetch fuel

/-- Concatenation of the pages at positions `200*j, 200*(j+1), ...`, `c`
pages in request order: the accumulated result of a completed ListAllX
loop that started at page index `j` and fetched `c` pages. -/
def pagesFromAux {α : Type} (items : Nat → List α) : Nat → Nat → List α
  | 0, _ => []
  | c + 1, j => items (200 * j) ++ pagesFromAux items c (j + 1)

/-- The number of pages a ListAllX loop fetches from a server that always
reports total count `N` and serves `min 200 (N - position)` items per page. -/
def maxPages (N : Nat) : Nat := max 1 ((N + 199) / 200)

/-! ## Domain validation polling: CheckDomainValidationStatus (domain.go) -/

/-- The body of `CheckDomainValidationStatus` (domain.go, lines 386-404).
`polls i` models the `i`-th call of `GetDomainValidationStatus`: either the
error that call returned or the `Status` field of its response.  The first
argument counts the remaining attempts (`maxRetries - attempt`), the second
the calls made so far.  Returns the Go function's result paired with the
total number of calls to the status endpoint. -/
def checkLoop (polls : Nat → Except String String) :
    Nat → Nat → Except String Unit × Nat
  | 0, calls => (.error "max retries reached, domain is still not validated", calls)
  | remaining + 1, calls =>
    match polls calls with
    | .error e => (.error e, calls + 1)
    | .ok status =>
      if status = "NOT_VALIDATED" then checkLoop polls remaining (calls + 1)
      else (.ok (), calls + 1)

/-- `CheckDomainValidationStatus(ctx, domain, maxRetries, retryInterval)`:
the `for attempt := 0; attempt < maxRetries; attempt++` loop runs
`max maxRetries 0` iterations (none when `maxRetries ≤ 0`); the sleep has
no observable effect in this model.  Result paired with the number of
status-endpoint calls made. -/
def CheckDomainValidationStatus (polls : Nat → Except String String)
    (maxRetries : Int) : Except String Unit × Nat :=
  checkLoop polls maxRetries.toNat 0

/-! ## SSL certificates (ssl.go) -/

/-- `CustomField` (ssl.go). -/
structure CustomField where
  name : String := ""
  value : String := ""
  deriving DecidableEq

/-- `AutoRenewDetails` (ssl.go): auto-renewal policy. -/
structure AutoRenewDetails where
  state : String := ""
  daysBeforeExpiration : Int := 0
  deriving DecidableEq

/-- One character of Go's escaping in `encoding/json` string encoding, for
the characters relevant here (quote, backslash, the common control
characters); any other character is emitted as itself. -/
def jsonEscapeChar (c : Char) : String :=
  if c = '"' then "\\\""
  else if c = '\\' then "\\\\"
  else if c = '\n' then "\\n"
  else if c = '\r' then "\\r"
  else if c = '\t' then "\\t"
  else String.singleton c

/-- A JSON string literal for `s`, as `encoding/json` produces it. -/
def jsonQuote (s : String) : String :=
  "\"" ++ String.join (s.data.map jsonEscapeChar) ++ "\""

/-- `AutoRenewDetails.MarshalJSON` (ssl.go, lines 157-171): the JSON
literal `null` when both fields are at their zero value, otherwise the
default marshalling of the two-field struct (both keys always present,
in declaration order, under their `json:` tag names). -/
def AutoRenewDetails.marshalJSON (a : AutoRenewDetails) : String :=
  if a.state = "" ∧ a.daysBeforeExpiration = 0 then "null"
  else
    "\x7b\"state\":" ++ jsonQuote a.state
      ++ ",\"daysBeforeExpiration\":" ++ toString a.daysBeforeExpiration ++ "\x7d"

/-- `UpdateSSLDetailsRequest` (ssl.go). -/
structure UpdateSSLDetailsRequest where
  sslId : Int := 0
  term : Int := 0
  certTypeId : Int := 0
  orgId : Int := 0
  commonName : String := ""
  csr : String := ""
  externalRequester : String := ""
  comments : String := ""
  subjectAlternativeNames : List String := []
  customFields : List CustomField := []
  autoRenewDetails : Option AutoRenewDetails := none
  suspendNotifications : Bool := false
  requester : String := ""
  requesterAdminId : Int := 0
  approverAdminId : Int := 0
  deriving DecidableEq

/-- A character of the class `[a-zA-Z0-9-+=\/\s]` of the CSR regular
expression in `validateUpdateSSLDetailsRequest` (`\s` in Go's regexp is
`[\t\n\f\r ]`). -/
def csrAllowedChar (c : Char) : Bool :=
  ('a' ≤ c && c ≤ 'z') || ('A' ≤ c && c ≤ 'Z') || ('0' ≤ c && c ≤ '9')
    || c == '-' || c == '+' || c == '=' || c == '/'
    || c == '\t' || c == '\n' || c == '\x0c' || c == '\r' || c == ' '

/-- `MatchString` of the anchored pattern `^[a-zA-Z0-9-+=\/\s]+$`: the
string is nonempty and every character lies in the class. -/
def csrRegexMatches (s : String) : Bool :=
  !(s == "") && s.data.all csrAllowedChar

/-- The `for _, field := range request.CustomFields` loop of
`validateUpdateSSLDetailsRequest`: the first violated rule over the custom
fields, in field order. -/
def validateCustomFields : List CustomField → Option String
  | [] => none
  | field :: rest =>
    if field.name = "" then some "custom field name must not be null"
    else if field.name.length < 1 ∨ field.name.length > 256 then
      some "custom field name size must be between 1 and 256 inclusive"
    else if field.value.length > 256 then
      some "custom field value maximum length is 256 characters or can be empty"
    else validateCustomFields rest

/-- The `request.AutoRenewDetails != nil` block of
`validateUpdateSSLDetailsRequest`. -/
def validateAutoRenew : Option AutoRenewDetails → Option String
  | none => none
  | some ard =>
    if ard.state ≠ "" ∧ ard.state ≠ "Not scheduled" ∧ ard.state ≠ "Scheduled" then
      some "autoRenewDetails.state allowed values are \x27Not scheduled\x27 and \x27Scheduled\x27"
    else if ard.daysBeforeExpiration ≠ 0 ∧ ard.daysBeforeExpiration < 1 then
      some "autoRenewDetails.daysBeforeExpiration must be at least 1"
    else none

/-- `validateUpdateSSLDetailsRequest` (ssl.go, lines 372-435): the first
violated rule, in source order, or `none` when the request is valid. -/
def validateUpdateSSLDetailsRequest (request : UpdateSSLDetailsRequest) : Option String :=
  if request.sslId < 1 then some "sslId must be at least 1"
  else if request.term ≠ 0 ∧ request.term < 1 then some "term must be at least 1"
  else if request.certTypeId ≠ 0 ∧ request.certTypeId < 1 then
    some "certTypeId must be at least 1"
  else if request.orgId ≠ 0 ∧ request.orgId < 1 then some "orgId must be at least 1"
  else if request.csr ≠ "" ∧ ¬csrRegexMatches request.csr then
    some "csr must match the regular expression [a-zA-Z0-9-+=\\/\\s]+"
  else if request.csr ≠ "" ∧ request.csr.length > 32767 then
    some "csr size must be between 1 and 32767 inclusive"
  else if request.comments.length > 1024 then
    some "comments maximum length is 1024 characters or can be empty"
  else
    match validateCustomFields request.customFields with
    | some e => some e
    | none =>
      match validateAutoRenew request.autoRenewDetails with
      | some e => some e
      | none =>
        if request.requesterAdminId ≠ 0 ∧ request.requesterAdminId < 1 then
          some "requesterAdminId must be at least 1"
        else if request.approverAdminId ≠ 0 ∧ request.approverAdminId < -1 then
          some "approverAdminId must be at least -1"
        else none

/-- What `UpdateSSLDetails` does before any response is needed: either it
stops at a validation error (no request is constructed or sent), or it
proceeds to construct and PUT the marshalled request. -/
inductive UpdateSSLOutcome where
  | validationError : String → UpdateSSLOutcome
  | sentRequest : UpdateSSLDetailsRequest → UpdateSSLOutcome
  deriving DecidableEq

/-- `UpdateSSLDetails` (ssl.go, lines 438-472), up to the network boundary:
it runs `validateUpdateSSLDetailsRequest` first and returns its error
without any HTTP request; only a valid request is sent. -/
def UpdateSSLDetails (request : UpdateSSLDetailsRequest) : UpdateSSLOutcome :=
  match validateUpdateSSLDetailsRequest request with
  | some e => .validationError e
  | none => .sentRequest request

/-- What `RevokeSSLById` does before any response is needed: either it
stops at the local reason-length validation error (no request constructed,
no network call), or it POSTs the reason to the revoke endpoint of the
given sslId, expecting the recorded status code. -/
inductive RevokeOutcome where
  | validationError : String → RevokeOutcome
  | sentRequest : Int → String → Nat → RevokeOutcome
  deriving DecidableEq

/-- `RevokeSSLById` (ssl.go, lines 322-342), up to the network boundary:
`if reason == "" || len(reason) > 512` fail locally, else POST the reason,
expecting `http.StatusNoContent` (204). -/
def RevokeSSLById (sslId : Int) (reason : String) : RevokeOutcome :=
  if reason = "" ∨ reason.length > 512 then
    .validationError "reason must be between 1 and 512 characters"
  else
    .sentRequest sslId reason 204

/-! ## Query-parameter construction (domain.go ListDomain, acme.go ListAcmeAccount) -/

/-- `ListDomainParams` (domain.go). -/
structure ListDomainParams where
  size : Int := 0
  position : Int := 0
  name : String := ""
  state : String := ""
  status : String := ""
  orgId : Int := 0

/-- `ListAcmeAccountParams` (acme.go). -/
structure ListAcmeAccountParams where
  position : Int := 0
  size : Int := 0
  organizationId : Int := 0
  name : String := ""
  acmeServer : String := ""
  certValidationType : String := ""
  status : String := ""

/-- The query parameters `ListDomain` (domain.go, lines 237-252) adds, as
the list of `queryParams.Add` calls in source order: `size` and `position`
always, each string filter only when non-empty, `orgId` only when
positive. -/
def listDomainQuery (p : ListDomainParams) : List (String × String) :=
  [("size", toString p.size), ("position", toString p.position)]
    ++ (if p.name ≠ "" then [("name", p.name)] else [])
    ++ (if p.state ≠ "" then [("state", p.state)] else [])
    ++ (if p.status ≠ "" then [("status", p.status)] else [])
    ++ (if p.orgId > 0 then [("orgId", toString p.orgId)] else [])

/-- The query parameters `ListAcmeAccount` (acme.go, lines 97-114) adds:
`size`, `position` and `organizationId` unconditionally (the latter even
at its zero value), each string filter only when non-empty. -/
def listAcmeAccountQuery (p : ListAcmeAccountParams) : List (String × String) :=
  [("size", toString p.size), ("position", toString p.position),
    ("organizationId", toString p.organizationId)]
    ++ (if p.name ≠ "" then [("name", p.name)] else [])
    ++ (if p.acmeServer ≠ "" then [("acmeServer", p.acmeServer)] else [])
    ++ (if p.certValidationType ≠ "" then [("certValidationType", p.certValidationType)] else [])
    ++ (if p.status ≠ "" then [("status", p.status)] else [])

/-- How many times key `k` occurs in query `q` (url.Values.Encode emits one
`k=v` pair per Add call; its sorting does not change multiplicities). -/
def keyCount (q : List (String × String)) (k : String) : Nat :=
  q.countP (fun kv => kv.1 == k)

/-! ## Concrete inputs used by witnesses and counterexamples -/

/-- A server for the C1 witness: total count 250, pages of
`min 200 (250 - position)` items. -/
def c1Items (p : Nat) : List Nat := List.replicate (min 200 (250 - p)) 7

/-- The single-page fetch the C1 witness runs `listAll` against. -/
def c1Fetch : Nat → Nat → Except String (List Nat × Int) :=
  fun _ p => .ok (c1Items p, (250 : Int))

/-- A server that answers every page request with exactly 200 items and no
X-Total-Count header (so the stored total count is 0): the scenario of the
spec's infinite-loop warning. -/
def c9Fetch : Nat → Nat → Except String (List Nat × Int) :=
  fun _ _ => .ok (List.replicate 200 0, (0 : Int))

/-- Status-endpoint outcomes NOT_VALIDATED, NOT_VALIDATED, validated, ... -/
def c3Polls : Nat → Except String String :=
  fun i => if i < 2 then .ok "NOT_VALIDATED" else .ok "validated"

/-- A comment string of length 1025, one over the allowed maximum. -/
def c4LongComments : String := String.mk (List.replicate 1025 'a')

/-- A revocation reason of length 513, one over the allowed maximum. -/
def c5LongReason : String := String.mk (List.replicate 513 'r')

end Sectigo

namespace Sectigo

theorem statusMatches_iff (e s : Nat) :
    statusMatches e s = true ↔ (e = 0 ∧ 200 ≤ s ∧ s < 300) ∨ (e ≠ 0 ∧ s = e) := by
  unfold statusMatches
  split
  · rename_i h; simp [h]
  · rename_i h; simp [h, beq_iff_eq]

theorem sendRequest_ok_eq (resp : HttpResponse) (e : Nat)
    (h : statusMatches e resp.statusCode = true) :
    sendRequest resp e = .ok resp.body := by
  simp [sendRequest, h]

theorem sendRequest_error_eq (resp : HttpResponse) (e : Nat)
    (h : statusMatches e resp.statusCode = false) :
    sendRequest resp e =
      .error ("failed request, status code: " ++ toString resp.statusCode
        ++ ", response: "
        ++ (if resp.body.length > 500 then resp.body.take 500 ++ "... (truncated)"
            else resp.body)) := by
  simp [sendRequest, h]

theorem errorMessage_contains_status (code : Nat) (tail : String) :
    strContains ("failed request, status code: " ++ toString code
      ++ ", response: " ++ tail) (toString code) := by
  refine ⟨"failed request, status code: ", ", response: " ++ tail, ?_⟩
  simp [String.append_assoc]

/-- C2: `sendRequest` succeeds exactly when the status equals the expected
code (or lies in [200,300) for the sentinel 0); on mismatch the error
message contains the actual status code and at most the first 500
characters of the body, with the `"... (truncated)"` marker appended
exactly when the body exceeded 500 characters. -/
theorem sendRequest_status_and_truncation (resp : HttpResponse) (expectedStatus : Nat) :
    ((∃ b, sendRequest resp expectedStatus = .ok b) ↔
      (expectedStatus = 0 ∧ 200 ≤ resp.statusCode ∧ resp.statusCode < 300) ∨
      (expectedStatus ≠ 0 ∧ resp.statusCode = expectedStatus)) ∧
    (∀ msg, sendRequest resp expectedStatus = .error msg →
      strContains msg (toString resp.statusCode) ∧
      (resp.body.length ≤ 500 →
        msg = "failed request, status code: " ++ toString resp.statusCode
          ++ ", response: " ++ resp.body) ∧
      (500 < resp.body.length →
        msg = "failed request, status code: " ++ toString resp.statusCode
          ++ ", response: " ++ (resp.body.take 500 ++ "... (truncated)"))) := by
  constructor
  · constructor
    · rintro ⟨b, hb⟩
      rw [← statusMatches_iff]
      by_contra hsm
      rw [Bool.not_eq_true] at hsm
      rw [sendRequest_error_eq resp expectedStatus hsm] at hb
      exact absurd hb (by simp)
    · intro h
      rw [← statusMatches_iff] at h
      exact ⟨resp.body, sendRequest_ok_eq resp expectedStatus h⟩
  · intro msg hmsg
    by_cases hsm : statusMatches expectedStatus resp.statusCode = true
    · rw [sendRequest_ok_eq resp expectedStatus hsm] at hmsg
      exact absurd hmsg (by simp)
    · rw [Bool.not_eq_true] at hsm
      rw [sendRequest_error_eq resp expectedStatus hsm] at hmsg
      replace hmsg := (Except.error.injEq _ _ ▸ hmsg)
      subst hmsg
      refine ⟨errorMessage_contains_status _ _, ?_, ?_⟩
      · intro hlen
        rw [if_neg (by omega)]
      · intro hlen
        rw [if_pos (by omega)]

theorem sendRequestUnit_exact (resp : HttpResponse) (k : Nat) (hk : k ≠ 0) :
    (sendRequestUnit resp k = .ok () ↔ resp.statusCode = k) ∧
    (∀ msg, sendRequestUnit resp k = .error msg →
      strContains msg (toString resp.statusCode)) := by
  by_cases hsm : statusMatches k resp.statusCode = true
  · have hcode : resp.statusCode = k := by
      rcases (statusMatches_iff k resp.statusCode).1 hsm with ⟨h0, _⟩ | ⟨_, h⟩
      · exact absurd h0 hk
      · exact h
    constructor
    · simp [sendRequestUnit, sendRequest_ok_eq resp k hsm, hcode]
    · intro msg hmsg
      simp [sendRequestUnit, sendRequest_ok_eq resp k hsm] at hmsg
  · rw [Bool.not_eq_true] at hsm
    have hcode : resp.statusCode ≠ k := by
      intro h
      rw [← Bool.not_eq_true, statusMatches_iff] at hsm
      exact hsm (Or.inr ⟨hk, h⟩)
    constructor
    · simp [sendRequestUnit, sendRequest_error_eq resp k hsm, hcode]
    · intro msg hmsg
      simp only [sendRequestUnit, sendRequest_error_eq resp k hsm] at hmsg
      replace hmsg := (Except.error.injEq _ _ ▸ hmsg)
      subst hmsg
      exact errorMessage_contains_status _ _

/-- C8: each write operation (CreateDomain expecting 201, DeleteDomain and
the revoke POST expecting 204, ApproveDelegation, DelegateDomain,
AddAcmeAccountDomains and the update PUT expecting 200) succeeds exactly on
its expected status code, and on any other status — other 2xx codes
included — fails with an error containing that status code. -/
theorem write_ops_status_contract (resp : HttpResponse) :
    ((CreateDomain resp = .ok () ↔ resp.statusCode = 201) ∧
      ∀ msg, CreateDomain resp = .error msg → strContains msg (toString resp.statusCode)) ∧
    ((DeleteDomain resp = .ok () ↔ resp.statusCode = 204) ∧
      ∀ msg, DeleteDomain resp = .error msg → strContains msg (toString resp.statusCode)) ∧
    ((revokeSSLSend resp = .ok () ↔ resp.statusCode = 204) ∧
      ∀ msg, revokeSSLSend resp = .error msg → strContains msg (toString resp.statusCode)) ∧
    ((ApproveDelegation resp = .ok () ↔ resp.statusCode = 200) ∧
      ∀ msg, ApproveDelegation resp = .error msg → strContains msg (toString resp.statusCode)) ∧
    ((DelegateDomain resp = .ok () ↔ resp.statusCode = 200) ∧
      ∀ msg, DelegateDomain resp = .error msg → strContains msg (toString resp.statusCode)) ∧
    ((AddAcmeAccountDomains resp = .ok () ↔ resp.statusCode = 200) ∧
      ∀ msg, AddAcmeAccountDomains resp = .error msg → strContains msg (toString resp.statusCode)) ∧
    ((updateSSLSend resp = .ok () ↔ resp.statusCode = 200) ∧
      ∀ msg, updateSSLSend resp = .error msg → strContains msg (toString resp.statusCode)) :=
  ⟨sendRequestUnit_exact resp 201 (by decide),
    sendRequestUnit_exact resp 204 (by decide),
    sendRequestUnit_exact resp 204 (by decide),
    sendRequestUnit_exact resp 200 (by decide),
    sendRequestUnit_exact resp 200 (by decide),
    sendRequestUnit_exact resp 200 (by decide),
    sendRequestUnit_exact resp 200 (by decide)⟩

theorem reason_empty_iff (reason : String) : reason = "" ↔ reason.length = 0 := by
  constructor
  · intro h; subst h; rfl
  · intro h
    cases reason with
    | mk data =>
      cases data with
      | nil => rfl
      | cons c cs => simp [String.length] at h

/-- C5: RevokeSSLById with a reason of length 0 or above 512 fails locally
with exactly "reason must be between 1 and 512 characters" and sends
nothing; with a reason of length 1 through 512 it proceeds to the POST,
expecting status 204. -/
theorem revokeSSLById_reason_validation (sslId : Int) (reason : String) :
    ((reason.length = 0 ∨ 512 < reason.length) →
      RevokeSSLById sslId reason =
        .validationError "reason must be between 1 and 512 characters") ∧
    (1 ≤ reason.length ∧ reason.length ≤ 512 →
      RevokeSSLById sslId reason = .sentRequest sslId reason 204) := by
  constructor
  · intro h
    rw [RevokeSSLById, if_pos]
    rcases h with h | h
    · exact Or.inl ((reason_empty_iff reason).2 h)
    · exact Or.inr h
  · rintro ⟨h1, h2⟩
    rw [RevokeSSLById, if_neg]
    push_neg
    constructor
    · intro h
      rw [reason_empty_iff] at h
      omega
    · omega

set_option maxRecDepth 8000 in
theorem revokeSSLById_reason_validation_witness :
    RevokeSSLById 1 c5LongReason =
      .validationError "reason must be between 1 and 512 characters" ∧
    RevokeSSLById 1 "" =
      .validationError "reason must be between 1 and 512 characters" ∧
    RevokeSSLById 2 "key compromised" = .sentRequest 2 "key compromised" 204 :=
  ⟨(revokeSSLById_reason_validation 1 c5LongReason).1 (Or.inr (by decide)),
    (revokeSSLById_reason_validation 1 "").1 (Or.inl (by decide)),
    (revokeSSLById_reason_validation 2 "key compromised").2 (by decide)⟩

set_option maxRecDepth 8000 in
/-- C4: validateUpdateSSLDetailsRequest returns the first violated rule
(sslId=0 the sslId error even when term is also bad; term=-1 the term
error; a CSR containing a bang the CSR-regex error; comments of length
1025 the comments-length error; approverAdminId=-2 its error while -1 and
1 pass), and UpdateSSLDetails returns any validation error without issuing
an HTTP request. -/
theorem updateSSLDetails_validation_rules :
    validateUpdateSSLDetailsRequest { sslId := 0 } = some "sslId must be at least 1" ∧
    validateUpdateSSLDetailsRequest { sslId := 0, term := -1 } =
      some "sslId must be at least 1" ∧
    validateUpdateSSLDetailsRequest { sslId := 1, term := -1 } =
      some "term must be at least 1" ∧
    validateUpdateSSLDetailsRequest { sslId := 1, csr := "abc!" } =
      some "csr must match the regular expression [a-zA-Z0-9-+=\\/\\s]+" ∧
    validateUpdateSSLDetailsRequest { sslId := 1, comments := c4LongComments } =
      some "comments maximum length is 1024 characters or can be empty" ∧
    validateUpdateSSLDetailsRequest { sslId := 1, approverAdminId := -2 } =
      some "approverAdminId must be at least -1" ∧
    validateUpdateSSLDetailsRequest { sslId := 1, approverAdminId := -1 } = none ∧
    validateUpdateSSLDetailsRequest { sslId := 1, approverAdminId := 1 } = none ∧
    (∀ request e, validateUpdateSSLDetailsRequest request = some e →
      UpdateSSLDetails request = .validationError e) := by
  refine ⟨by decide, by decide, by decide, by decide, by decide, by decide,
    by decide, by decide, ?_⟩
  intro request e h
  simp [UpdateSSLDetails, h]

theorem updateSSLDetails_validation_rules_witness :
    UpdateSSLDetails { sslId := 0 } = .validationError "sslId must be at least 1" :=
  updateSSLDetails_validation_rules.2.2.2.2.2.2.2.2 { sslId := 0 }
    "sslId must be at least 1" (by decide)

/-- C6: marshalling an AutoRenewDetails with empty state and zero
daysBeforeExpiration yields exactly the JSON literal null; any other value
marshals to an object carrying both the state and daysBeforeExpiration
fields. -/
theorem autoRenewDetails_marshal_contract (a : AutoRenewDetails) :
    (a.state = "" ∧ a.daysBeforeExpiration = 0 → a.marshalJSON = "null") ∧
    (¬(a.state = "" ∧ a.daysBeforeExpiration = 0) →
      strContains a.marshalJSON "\"state\":" ∧
      strContains a.marshalJSON "\"daysBeforeExpiration\":") := by
  constructor
  · intro h
    rw [AutoRenewDetails.marshalJSON, if_pos h]
  · intro h
    rw [AutoRenewDetails.marshalJSON, if_neg h]
    have h1 : ∀ y : String, "\x7b" ++ ("\"state\":" ++ y) = "\x7b\"state\":" ++ y := by
      intro y
      rw [← String.append_assoc]
      congr 1
    have h2 : ∀ y : String,
        "," ++ ("\"daysBeforeExpiration\":" ++ y) = ",\"daysBeforeExpiration\":" ++ y := by
      intro y
      rw [← String.append_assoc]
      congr 1
    constructor
    · refine ⟨"\x7b", jsonQuote a.state
        ++ (",\"daysBeforeExpiration\":"
          ++ (toString a.daysBeforeExpiration ++ "\x7d")), ?_⟩
      simp only [String.append_assoc, h1]
    · refine ⟨"\x7b\"state\":" ++ jsonQuote a.state ++ ",",
        toString a.daysBeforeExpiration ++ "\x7d", ?_⟩
      simp only [String.append_assoc, h2]

theorem autoRenewDetails_marshal_contract_witness :
    AutoRenewDetails.marshalJSON {} = "null" ∧
    strContains
      (AutoRenewDetails.marshalJSON { state := "Scheduled", daysBeforeExpiration := 30 })
      "\"daysBeforeExpiration\":" :=
  ⟨(autoRenewDetails_marshal_contract {}).1 ⟨rfl, rfl⟩,
    ((autoRenewDetails_marshal_contract
      { state := "Scheduled", daysBeforeExpiration := 30 }).2 (by simp)).2⟩

theorem checkLoop_skip (polls : Nat → Except String String) :
    ∀ k r c, (∀ i, i < k → polls (c + i) = .ok "NOT_VALIDATED") → k ≤ r →
      checkLoop polls r c = checkLoop polls (r - k) (c + k) := by
  intro k
  induction k with
  | zero => intro r c _ _; simp
  | succ k ih =>
    intro r c hnv hkr
    obtain ⟨r', rfl⟩ : ∃ r', r = r' + 1 := ⟨r - 1, by omega⟩
    have h0 : polls c = .ok "NOT_VALIDATED" := by
      have := hnv 0 (by omega)
      simpa using this
    have step : checkLoop polls (r' + 1) c = checkLoop polls r' (c + 1) := by
      simp [checkLoop, h0]
    rw [step]
    have hrec := ih r' (c + 1)
      (fun i hi => by
        have := hnv (i + 1) (by omega)
        have e : c + (i + 1) = c + 1 + i := by omega
        rw [e] at this
        exact this)
      (by omega)
    rw [hrec]
    have e1 : r' - k = r' + 1 - (k + 1) := by omega
    have e2 : c + 1 + k = c + (k + 1) := by omega
    rw [e1, e2]

/-- C3: with maxRetries at least 1, CheckDomainValidationStatus returns a
poll's error as soon as that poll fails (no further calls), returns
success at the first poll whose status is anything other than
NOT_VALIDATED, and after maxRetries consecutive NOT_VALIDATED results
returns the max-retries error having called the endpoint exactly
maxRetries times. -/
theorem checkDomainValidationStatus_contract (polls : Nat → Except String String)
    (m : Nat) (_hm : 1 ≤ m) :
    (∀ k e, k < m → (∀ i, i < k → polls i = .ok "NOT_VALIDATED") →
      polls k = .error e →
      CheckDomainValidationStatus polls (m : Int) = (.error e, k + 1)) ∧
    (∀ k s, k < m → (∀ i, i < k → polls i = .ok "NOT_VALIDATED") →
      polls k = .ok s → s ≠ "NOT_VALIDATED" →
      CheckDomainValidationStatus polls (m : Int) = (.ok (), k + 1)) ∧
    ((∀ i, i < m → polls i = .ok "NOT_VALIDATED") →
      CheckDomainValidationStatus polls (m : Int) =
        (.error "max retries reached, domain is still not validated", m)) := by
  have htn : ((m : Int)).toNat = m := by simp
  refine ⟨?_, ?_, ?_⟩
  · intro k e hk hnv he
    unfold CheckDomainValidationStatus
    rw [htn, checkLoop_skip polls k m 0 (fun i hi => by simpa using hnv i hi) (by omega)]
    obtain ⟨r', hr⟩ : ∃ r', m - k = r' + 1 := ⟨m - k - 1, by omega⟩
    rw [hr]
    simp [checkLoop, he]
  · intro k st hk hnv hs hne
    unfold CheckDomainValidationStatus
    rw [htn, checkLoop_skip polls k m 0 (fun i hi => by simpa using hnv i hi) (by omega)]
    obtain ⟨r', hr⟩ : ∃ r', m - k = r' + 1 := ⟨m - k - 1, by omega⟩
    rw [hr]
    simp [checkLoop, hs, hne]
  · intro hnv
    unfold CheckDomainValidationStatus
    rw [htn, checkLoop_skip polls m m 0 (fun i hi => by simpa using hnv i hi) (by omega)]
    rw [Nat.sub_self]
    simp [checkLoop]

theorem checkDomainValidationStatus_contract_witness :
    CheckDomainValidationStatus c3Polls ((5 : Nat) : Int) = (.ok (), 3) :=
  (checkDomainValidationStatus_contract c3Polls 5 (by norm_num)).2.1 2 "validated"
    (by norm_num)
    (fun i hi => by
      have h01 : i = 0 ∨ i = 1 := by omega
      rcases h01 with h | h <;> subst h <;> rfl)
    rfl (by decide)

/-- C10: with maxRetries at most 0 the retry loop of
CheckDomainValidationStatus runs no iteration: the max-retries error is
returned immediately and the status endpoint is called zero times. -/
theorem checkDomainValidationStatus_nonpositive_retries
    (polls : Nat → Except String String) (maxRetries : Int) (h : maxRetries ≤ 0) :
    CheckDomainValidationStatus polls maxRetries =
      (.error "max retries reached, domain is still not validated", 0) := by
  unfold CheckDomainValidationStatus
  rw [Int.toNat_of_nonpos h]
  rfl

theorem checkDomainValidationStatus_nonpositive_retries_witness :
    CheckDomainValidationStatus c3Polls 0 =
      (.error "max retries reached, domain is still not validated", 0) :=
  checkDomainValidationStatus_nonpositive_retries c3Polls 0 (by norm_num)

theorem listAllLoop_pages {α : Type} (items : Nat → List α) (N : Nat)
    (fetch : Nat → Nat → Except String (List α × Int))
    (hfetch : ∀ p, fetch 200 p = .ok (items p, (N : Int)))
    (hlen : ∀ p, (items p).length = min 200 (N - p)) :
    ∀ c j acc, j < maxPages N → maxPages N ≤ j + c →
      listAllLoop fetch c (200 * j) acc =
        some (.ok (acc ++ pagesFromAux items (maxPages N - j) j)) := by
  intro c
  induction c with
  | zero => intro j acc hj hc; exfalso; omega
  | succ c ih =>
    intro j acc hj hc
    have hMdef : maxPages N = max 1 ((N + 199) / 200) := rfl
    simp only [listAllLoop, hfetch]
    by_cases hbreak : 200 * j + 200 ≥ N
    · rw [if_pos (Or.inr (by omega))]
      have hj1 : maxPages N - j = 1 := by omega
      rw [hj1]
      simp [pagesFromAux]
    · have hcond :
          ¬((items (200 * j)).length < 200 ∨ ((200 * j : Nat) : Int) + 200 ≥ (N : Int)) := by
        rintro (h | h)
        · rw [hlen (200 * j)] at h; omega
        · omega
      rw [if_neg hcond]
      have hpos : 200 * j + 200 = 200 * (j + 1) := by ring
      rw [hpos]
      have hj1 : j + 1 < maxPages N := by omega
      rw [ih (j + 1) (acc ++ items (200 * j)) hj1 (by omega)]
      have hsplit : maxPages N - j = (maxPages N - (j + 1)) + 1 := by omega
      rw [hsplit]
      simp [pagesFromAux, List.append_assoc]

theorem pagesFromAux_length {α : Type} (items : Nat → List α) (N : Nat)
    (hlen : ∀ p, (items p).length = min 200 (N - p)) :
    ∀ c j, c = maxPages N - j → j < maxPages N →
      (pagesFromAux items c j).length = N - 200 * j := by
  intro c
  induction c with
  | zero => intro j hc hj; exfalso; omega
  | succ c ih =>
    intro j hc hj
    have hMdef : maxPages N = max 1 ((N + 199) / 200) := rfl
    simp only [pagesFromAux, List.length_append, hlen (200 * j)]
    by_cases hlast : c = 0
    · subst hlast
      simp only [pagesFromAux, List.length_nil]
      omega
    · have hj1 : j + 1 < maxPages N := by omega
      rw [ih (j + 1) (by omega) hj1]
      omega

theorem listAllLoop_short_page_stops {α : Type}
    (g : Nat → Nat → Except String (List α × Int)) :
    ∀ j c acc,
      (∀ i, c ≤ i → i ≤ c + j → ∃ pg tot, g 200 (200 * i) = .ok (pg, tot)) →
      (∀ pg tot, g 200 (200 * (c + j)) = .ok (pg, tot) → pg.length < 200) →
      ∃ r, listAllLoop g (j + 1) (200 * c) acc = some r := by
  intro j
  induction j with
  | zero =>
    intro c acc hok hshort
    obtain ⟨pg, tot, hg⟩ := hok c (le_refl c) (by omega)
    rw [Nat.add_zero] at hshort
    refine ⟨.ok (acc ++ pg), ?_⟩
    simp only [listAllLoop, hg]
    rw [if_pos (Or.inl (hshort pg tot hg))]
  | succ j ih =>
    intro c acc hok hshort
    obtain ⟨pg, tot, hg⟩ := hok c (le_refl c) (by omega)
    by_cases hcond : (pg.length < 200 ∨ ((200 * c : Nat) : Int) + 200 ≥ tot)
    · refine ⟨.ok (acc ++ pg), ?_⟩
      simp only [listAllLoop, hg]
      rw [if_pos hcond]
    · have hrec := ih (c + 1) (acc ++ pg)
        (fun i hi1 hi2 => hok i (by omega) (by omega))
        (by
          have e : c + 1 + j = c + (j + 1) := by omega
          rw [e]
          exact hshort)
      obtain ⟨r, hr⟩ := hrec
      refine ⟨r, ?_⟩
      simp only [listAllLoop, hg]
      rw [if_neg hcond]
      have hpos : 200 * c + 200 = 200 * (c + 1) := by ring
      rw [hpos]
      exact hr

/-- C1: against a server whose every page call succeeds, reports total
count N, and serves min(200, remaining) items per page, a ListAllX loop
terminates and returns exactly the N items, pages concatenated in request
order; and it terminates whenever some page comes back short. -/
theorem listAll_returns_totalCount {α : Type} (items : Nat → List α) (N : Nat)
    (fetch : Nat → Nat → Except String (List α × Int))
    (hfetch : ∀ p, fetch 200 p = .ok (items p, (N : Int)))
    (hlen : ∀ p, (items p).length = min 200 (N - p)) :
    (listAll fetch (N / 200 + 1) = some (.ok (pagesFromAux items (maxPages N) 0)) ∧
      (pagesFromAux items (maxPages N) 0).length = N) ∧
    (∀ (g : Nat → Nat → Except String (List α × Int)) (j : Nat),
      (∀ i, i ≤ j → ∃ pg tot, g 200 (200 * i) = .ok (pg, tot)) →
      (∀ pg tot, g 200 (200 * j) = .ok (pg, tot) → pg.length < 200) →
      ∃ r, listAll g (j + 1) = some r) := by
  have hMdef : maxPages N = max 1 ((N + 199) / 200) := rfl
  refine ⟨⟨?_, ?_⟩, ?_⟩
  · have h := listAllLoop_pages items N fetch hfetch hlen (N / 200 + 1) 0 []
      (by omega) (by omega)
    simpa [listAll] using h
  · have h := pagesFromAux_length items N hlen (maxPages N) 0 (by omega) (by omega)
    simpa using h
  · intro g j hok hshort
    have h := listAllLoop_short_page_stops g j 0 []
      (fun i h0 hij => hok i (by omega))
      (by simpa using hshort)
    simpa [listAll] using h

theorem listAll_returns_totalCount_witness :
    listAll c1Fetch (250 / 200 + 1) =
      some (.ok (pagesFromAux c1Items (maxPages 250) 0)) ∧
    (pagesFromAux c1Items (maxPages 250) 0).length = 250 :=
  (listAll_returns_totalCount c1Items 250 c1Fetch (fun p => rfl)
    (fun p => by simp [c1Items])).1

set_option maxRecDepth 8000 in
/-- C9 counterexample: with a server that answers every page request with
exactly 200 items and no X-Total-Count header (stored total count 0), the
ListAllX loop terminates after the very first page — the break condition
`position+size >= totalCount` holds at position 0 — contradicting the
claim that it keeps requesting pages indefinitely. -/
theorem listAll_totalCount_zero_terminates_counterexample :
    listAll c9Fetch 1 = some (.ok (List.replicate 200 0)) := by
  unfold listAll c9Fetch
  simp only [listAllLoop]
  rw [if_pos (Or.inr (by norm_num))]
  simp

/-- C9 (amended): for a server that returns exactly 200 items per page and
reports total count 0 (header absent), a ListAllX loop terminates after
the first page and returns those 200 items, since `position+size >=
totalCount` already holds at position 0. -/
theorem listAll_totalCount_zero_first_page {α : Type} (page : List α)
    (fetch : Nat → Nat → Except String (List α × Int))
    (_hpage : page.length = 200) (hfetch : fetch 200 0 = .ok (page, (0 : Int)))
    (fuel : Nat) (hfuel : 1 ≤ fuel) :
    listAll fetch fuel = some (.ok page) := by
  obtain ⟨f, rfl⟩ : ∃ f, fuel = f + 1 := ⟨fuel - 1, by omega⟩
  unfold listAll
  simp only [listAllLoop, hfetch]
  rw [if_pos (Or.inr (by norm_num))]
  simp

set_option maxRecDepth 8000 in
theorem listAll_totalCount_zero_first_page_witness :
    listAll c9Fetch 1 = some (.ok (List.replicate 200 (0 : Nat))) :=
  listAll_totalCount_zero_first_page (List.replicate 200 0) c9Fetch
    (by simp) rfl 1 (le_refl 1)

/-- C7 counterexample: in ListAcmeAccount the organizationId parameter is
added to the query even at its zero value (it is not only size and
position that are always present), and in ListDomain a negative — hence
non-zero — orgId is omitted from the query. -/
theorem listQuery_zero_value_counterexample :
    keyCount (listAcmeAccountQuery {}) "organizationId" = 1 ∧
    keyCount (listDomainQuery { orgId := -1 }) "orgId" = 0 := by
  constructor <;> decide

/-- C7 (amended): size and position always appear exactly once; each
string filter appears exactly once when non-empty and is absent when
empty; ListDomain's numeric orgId filter appears exactly once when
positive and is absent otherwise (zero or negative); ListAcmeAccount
additionally always sends organizationId exactly once, even at zero. -/
theorem listQuery_field_occurrence (p : ListDomainParams) (q : ListAcmeAccountParams) :
    (keyCount (listDomainQuery p) "size" = 1 ∧
      keyCount (listDomainQuery p) "position" = 1 ∧
      keyCount (listDomainQuery p) "name" = (if p.name = "" then 0 else 1) ∧
      keyCount (listDomainQuery p) "state" = (if p.state = "" then 0 else 1) ∧
      keyCount (listDomainQuery p) "status" = (if p.status = "" then 0 else 1) ∧
      keyCount (listDomainQuery p) "orgId" = (if 0 < p.orgId then 1 else 0)) ∧
    (keyCount (listAcmeAccountQuery q) "size" = 1 ∧
      keyCount (listAcmeAccountQuery q) "position" = 1 ∧
      keyCount (listAcmeAccountQuery q) "organizationId" = 1 ∧
      keyCount (listAcmeAccountQuery q) "name" = (if q.name = "" then 0 else 1) ∧
      keyCount (listAcmeAccountQuery q) "acmeServer" =
        (if q.acmeServer = "" then 0 else 1) ∧
      keyCount (listAcmeAccountQuery q) "certValidationType" =
        (if q.certValidationType = "" then 0 else 1) ∧
      keyCount (listAcmeAccountQuery q) "status" = (if q.status = "" then 0 else 1)) := by
  unfold listDomainQuery listAcmeAccountQuery keyCount
  refine ⟨⟨?_, ?_, ?_, ?_, ?_, ?_⟩, ?_, ?_, ?_, ?_, ?_, ?_, ?_⟩ <;>
    split_ifs <;>
      simp_all [List.countP_append, List.countP_cons, List.countP_nil]

end Sectigo
